import Mathlib

/-!
Shallow embedding of the two scripts of this repository:
`research/slim/eval_image_classifier.py` (evaluation driver) and
`research/slim/slim_exporter.py` (export pipeline).

Framework side effects (graph ops, checkpoint writes, graph freezing, the
servable-bundle writer) are modelled as trace events; command-line flags and
function parameters become records; raised Python exceptions become an
explicit error type; Python truthiness of optional values is modelled
explicitly. External facts the scripts consult (temp-file names, whether a
path is a directory, the latest checkpoint of a directory) are environment
parameters.
-/

namespace Models

/-- Python exceptions raised by the two scripts. -/
inductive PyError where
  | valueError (msg : String)
  | typeError (msg : String)
  | zeroDivisionError
deriving DecidableEq

/-- Python truthiness of an optional string (None and the empty string are falsy). -/
def pyTruthyStr : Option String → Bool
  | none => false
  | some s => !s.isEmpty

/-- Python truthiness of an optional integer (None and 0 are falsy). -/
def pyTruthyInt : Option Int → Bool
  | none => false
  | some n => n != 0

/-- Python truthiness of an optional boolean (None and False are falsy). -/
def pyTruthyBool : Option Bool → Bool
  | none => false
  | some b => b

/-- Whether the first character list occurs at the start of the second. -/
def strStarts : List Char → List Char → Bool
  | [], _ => true
  | _ :: _, [] => false
  | a :: as, b :: bs => a == b && strStarts as bs

/-- Whether the first character list occurs somewhere inside the second. -/
def strFind : List Char → List Char → Bool
  | n, [] => strStarts n []
  | n, h :: t => strStarts n (h :: t) || strFind n t

/-- Python substring membership, needle in hay. -/
def pyInStr (needle hay : String) : Bool :=
  strFind needle.toList hay.toList

/-! Flags of eval_image_classifier.py, with their declared default values. -/

structure EvalFlags where
  batch_size : Int := 100
  max_num_batches : Option Int := none
  master : String := ""
  checkpoint_path : Option String := none
  eval_dir : Option String := none
  output_path : Option String := none
  num_preprocessing_threads : Int := 4
  dataset_name : String := "mnist"
  dataset_split_name : String := "test"
  dataset_dir : Option String := none
  data_path : Option String := none
  labels_offset : Int := 0
  model_name : String := "lenet"
  preprocessing_name : Option String := none
  moving_average_decay : Option ℚ := none
  eval_image_size : Option Nat := none
  quantize : Bool := false
  use_grayscale : Bool := false
  checkpoint_exclude_scopes : Option String := none
  trainable_scopes : Option String := none
  ignore_missing_vars : Bool := false
  visualPath : String := ""

/-- Dataset descriptor returned by the dataset factory. -/
structure Dataset where
  num_samples : Nat
  num_classes : Nat
deriving DecidableEq

/-- External facts consulted by main: whether checkpoint_path is a directory,
and the latest checkpoint inside it. -/
structure EvalEnv where
  checkpointIsDirectory : Bool
  latestCheckpoint : Option String
deriving DecidableEq

/-- The metric names of the multi-class branch, in construction order. -/
def multiclassMetricNames : List String :=
  ["Accuracy", "Precision", "Recall", "Recall_5"]

/-- The metric names of the binary branch, in construction order. -/
def binaryMetricNames : List String :=
  ["Accuracy", "Precision", "Recall", "F1_score", "Auc_ROC", "Auc_PR",
   "TP", "TN", "FP", "FN"]

/-- The single-pass batch count, math.ceil of num_samples divided by
float batch_size; float division by zero raises ZeroDivisionError. -/
def num_batches_ceil (numSamples : Nat) (batchSize : Int) : Except PyError Int :=
  if batchSize = 0 then Except.error PyError.zeroDivisionError
  else Except.ok ⌈(numSamples : ℚ) / (batchSize : ℚ)⌉

/-- Lines 253 to 257 of the driver: the max_num_batches flag is used when
truthy, otherwise the ceiling formula is used. -/
def compute_num_batches (maxNumBatches : Option Int) (numSamples : Nat)
    (batchSize : Int) : Except PyError Int :=
  match maxNumBatches with
  | some n => if n = 0 then num_batches_ceil numSamples batchSize else Except.ok n
  | none => num_batches_ceil numSamples batchSize

/-- The configuration main derives before handing off to evaluate_once. -/
structure EvalSetup where
  networkNumClasses : Int
  metricLabel : Int
  metricNames : List String
  numBatches : Int
  resolvedCheckpoint : Option String
deriving DecidableEq

/-- Embedding of main of eval_image_classifier.py: the dataset-directory
precondition check, the network class count, the label-offset subtraction
applied to a provider label before the metrics are built, the metric-set
selection by class count, the batch-count computation and the checkpoint
resolution. The dataset comes from the factory; rawLabel is a label value
read from the data provider. -/
def eval_main (flags : EvalFlags) (dataset : Dataset) (rawLabel : Int)
    (env : EvalEnv) : Except PyError EvalSetup :=
  if pyTruthyStr flags.dataset_dir = false then
    Except.error (PyError.valueError
      "You must supply the dataset directory with --dataset_dir")
  else
    match compute_num_batches flags.max_num_batches dataset.num_samples
        flags.batch_size with
    | Except.error e => Except.error e
    | Except.ok nb =>
        Except.ok
          { networkNumClasses := (dataset.num_classes : Int) - flags.labels_offset,
            metricLabel := rawLabel - flags.labels_offset,
            metricNames :=
              if dataset.num_classes > 2 then multiclassMetricNames
              else binaryMetricNames,
            numBatches := nb,
            resolvedCheckpoint :=
              if env.checkpointIsDirectory then env.latestCheckpoint
              else flags.checkpoint_path }

/-- Embedding of the module entry point guarded by the main-module check:
the data_path and output_path aliases are applied, then the dog special
case runs a substring test on data_path; when data_path is None that
membership test raises TypeError. -/
def entry_point (flags : EvalFlags) : EvalFlags × Option PyError :=
  let f1 := match flags.data_path with
    | some p => { flags with dataset_dir := some p }
    | none => flags
  let f2 := match f1.output_path with
    | some p => { f1 with eval_dir := some p }
    | none => f1
  match f2.data_path with
  | none => (f2, some (PyError.typeError "argument of type NoneType is not iterable"))
  | some p =>
      if pyInStr "dog" p then
        ({ f2 with dataset_name := "dog-vs-cat",
                   dataset_split_name := "validation",
                   model_name := "inception_v3" }, none)
      else (f2, none)

/-- Running the script: the entry-point block runs first and aborts on its
error, otherwise main runs with the rewritten flags. -/
def run_script (flags : EvalFlags) (dataset : Dataset) (rawLabel : Int)
    (env : EvalEnv) : Except PyError EvalSetup :=
  match entry_point flags with
  | (_, some e) => Except.error e
  | (f, none) => eval_main f dataset rawLabel env

/-! Embedding of slim_exporter.py. Graph construction is modelled as the
list of tensor-producing framework calls, in program order. -/

/-- Tensor-producing graph operations, one per framework call. -/
inductive GraphOp where
  | placeholder (name : String) (shape : List (Option Nat))
  | mapFnDecode
  | toFloat
  | convertImageDtype
  | rgbToGrayscale
  | centralCrop
  | resizeBilinear
  | subtractHalf
  | multiplyTwo
  | modelForward
  | softmaxOp
  | argmaxOp
  | identityOut (name : String)
  | collect (collection : String) (name : String)
  | globalStep
  | hookCall
deriving DecidableEq

/-- model_preprocess: dtype conversion when not float32, optional grayscale,
central crop when enabled with truthy fraction, and the resize block when
both height and width are truthy. -/
def model_preprocess (dtypeIsFloat32 : Bool) (height width : Nat)
    (centralFraction : ℚ) (centralCrop : Bool) (useGrayscale : Bool) :
    List GraphOp :=
  (if dtypeIsFloat32 then [] else [GraphOp.convertImageDtype]) ++
  (if useGrayscale then [GraphOp.rgbToGrayscale] else []) ++
  (if centralCrop ∧ centralFraction ≠ 0 then [GraphOp.centralCrop] else []) ++
  (if height ≠ 0 ∧ width ≠ 0 then
    [GraphOp.resizeBilinear, GraphOp.subtractHalf, GraphOp.multiplyTwo]
   else [])

/-- model_postprocess: forward pass, softmax, argmax; the resulting dict has
keys logits then classes in insertion order. -/
def model_postprocess : List GraphOp × List String :=
  ([GraphOp.modelForward, GraphOp.softmaxOp, GraphOp.argmaxOp],
   ["logits", "classes"])

/-- The keys of input_placeholder_fn_map, in insertion order. -/
def input_placeholder_fn_map : List String :=
  ["image_tensor", "encoded_image_string_tensor"]

/-- The image-tensor placeholder: shape from input_shape, defaulting to
four dynamic-or-3 dimensions; returns ops and the placeholder name. -/
def _image_tensor_input_placeholder (inputShape : Option (List (Option Nat))) :
    List GraphOp × String :=
  ([GraphOp.placeholder "image_tensor"
      (inputShape.getD [none, none, none, some 3])], "image_tensor")

/-- The encoded-image-string placeholder plus the map_fn decode node. -/
def _encoded_image_string_tensor_input_placeholder : List GraphOp × String :=
  ([GraphOp.placeholder "encoded_image_string_tensor" [none],
    GraphOp.mapFnDecode], "encoded_image_string_tensor")

/-- _add_output_tensor_nodes: identity nodes named classes and logits, each
added to the output collection; the outputs dict has keys classes then
logits in insertion order. -/
def _add_output_tensor_nodes (outputCollectionName : String) :
    List GraphOp × List String :=
  ([GraphOp.identityOut "classes", GraphOp.identityOut "logits",
    GraphOp.collect outputCollectionName "classes",
    GraphOp.collect outputCollectionName "logits"],
   ["classes", "logits"])

/-- _get_outputs_from_inputs: to_float, model_preprocess on a float32 image
at the target size, model_postprocess, then the output nodes. -/
def _get_outputs_from_inputs (imageSize : Nat) (outputCollectionName : String) :
    List GraphOp × List String :=
  ((GraphOp.toFloat :: model_preprocess true imageSize imageSize 0.875 true false) ++
     model_postprocess.1 ++ (_add_output_tensor_nodes outputCollectionName).1,
   (_add_output_tensor_nodes outputCollectionName).2)

/-- Result of a successful _build_model_graph: the output dict keys and the
placeholder tensor. -/
structure BuildResult where
  outputs : List String
  placeholderName : String
deriving DecidableEq

/-- _build_model_graph: checks the input type against the placeholder map,
rejects an input shape for any type other than image_tensor, then builds
the placeholder, the model body, the global step and the optional hook.
The first component is the list of graph ops actually constructed. -/
def _build_model_graph (inputType : String) (imageSize : Nat)
    (inputShape : Option (List (Option Nat))) (outputCollectionName : String)
    (graphHook : Bool) : List GraphOp × Except PyError BuildResult :=
  if inputType ∉ input_placeholder_fn_map then
    ([], Except.error (PyError.valueError ("Unknown input type: " ++ inputType)))
  else if inputShape.isSome ∧ inputType ≠ "image_tensor" then
    ([], Except.error (PyError.valueError
      "Can only specify input shape for image_tensor inputs."))
  else
    let ph := if inputType = "image_tensor" then
        _image_tensor_input_placeholder inputShape
      else _encoded_image_string_tensor_input_placeholder
    let body := _get_outputs_from_inputs imageSize outputCollectionName
    (ph.1 ++ body.1 ++ [GraphOp.globalStep] ++
       (if graphHook then [GraphOp.hookCall] else []),
     Except.ok { outputs := body.2, placeholderName := ph.2 })

/-- What graph content a saved-model bundle is built from: a frozen
GraphDef imported into a fresh session, or the live default graph with
variables restored from a checkpoint by a Saver. -/
inductive SavedModelSource where
  | importedFrozenGraphDef
  | liveGraphRestoredFrom (checkpoint : String)
deriving DecidableEq

/-- Whether a bundle source is the frozen graph definition. -/
def SavedModelSource.isFromFrozenGraphDef : SavedModelSource → Bool
  | SavedModelSource.importedFrozenGraphDef => true
  | SavedModelSource.liveGraphRestoredFrom _ => false

/-- Effects of the export pipeline, in program order. -/
inductive ExportEffect where
  | makeDirs (dir : String)
  | graph (op : GraphOp)
  | replaceWithMovingAverages (currentCheckpoint newCheckpoint : String)
  | writeGraphAndCheckpoint (modelPath restoredCheckpoint : String)
  | freezeGraph (inputCheckpoint outputNodeNames outputGraph : String)
  | writeFrozenGraph (path : String)
  | savedModel (path : String) (source : SavedModelSource) (inputTensor : String)
      (signatureInputs : List String) (signatureOutputs : List String)
      (tags : List String)
deriving DecidableEq

/-- write_saved_model, the variant taking the frozen graph definition: it
imports the frozen GraphDef into a fresh graph and builds the bundle with
one signature input named inputs, the output keys, and the serving tag.
This function is never called by export_inference_graph. -/
def write_saved_model (savedModelPath : String) (inputTensor : String)
    (outputs : List String) : ExportEffect :=
  ExportEffect.savedModel savedModelPath SavedModelSource.importedFrozenGraphDef
    inputTensor ["inputs"] outputs ["serve"]

/-- The underscore variant actually called by export_inference_graph: a
fresh Saver restores the given checkpoint into the current default graph
and the bundle is built from that session with one signature input named
inputs, the output keys, and the serving tag. -/
def _write_saved_model (savedModelPath : String) (trainedCheckpointPath : String)
    (inputTensor : String) (outputs : List String) : ExportEffect :=
  ExportEffect.savedModel savedModelPath
    (SavedModelSource.liveGraphRestoredFrom trainedCheckpointPath)
    inputTensor ["inputs"] outputs ["serve"]

/-- Parameters of export_inference_graph, with their declared defaults. -/
structure ExportConfig where
  inputType : String
  imageSize : Nat
  trainedCheckpointPath : String
  outputDirectory : String
  inputShape : Option (List (Option Nat)) := none
  useMovingAverages : Option Bool := none
  outputCollectionName : String := "inference_op"
  additionalOutputTensorNames : Option (List String) := none
  graphHook : Bool := false
deriving DecidableEq

/-- External facts consulted by export_inference_graph: whether the trained
checkpoint path is a file, and the names tempfile hands out. -/
structure ExportEnv where
  trainedCheckpointIsFile : Bool
  tempFileName : String
  tempDirName : String
deriving DecidableEq

/-- The temporary checkpoint location chosen by the moving-average branch. -/
def tempPathOf (env : ExportEnv) : String :=
  if env.trainedCheckpointIsFile then env.tempFileName else env.tempDirName

/-- Embedding of export_inference_graph: directory creation, graph build,
optional moving-average substitution into a temporary checkpoint which then
becomes the checkpoint to use, graph-and-checkpoint write, the
output-node-names computation whose plus of dict_keys and a list raises
TypeError whenever the additional names are not None, graph freezing, and
the saved-model write from the raw trained checkpoint. Returns the effects
executed and the error that terminated the run, if any. -/
def export_inference_graph (cfg : ExportConfig) (env : ExportEnv) :
    List ExportEffect × Option PyError :=
  let frozenGraphPath := cfg.outputDirectory ++ "/frozen_inference_graph.pb"
  let savedModelPath := cfg.outputDirectory ++ "/saved_model"
  let modelPath := cfg.outputDirectory ++ "/model.ckpt"
  let dirs := [ExportEffect.makeDirs cfg.outputDirectory]
  match _build_model_graph cfg.inputType cfg.imageSize cfg.inputShape
      cfg.outputCollectionName cfg.graphHook with
  | (ops, Except.error e) => (dirs ++ ops.map ExportEffect.graph, some e)
  | (ops, Except.ok res) =>
    let built := dirs ++ ops.map ExportEffect.graph
    let ma := if pyTruthyBool cfg.useMovingAverages then
        ([ExportEffect.replaceWithMovingAverages cfg.trainedCheckpointPath
            (tempPathOf env)], tempPathOf env)
      else ([], cfg.trainedCheckpointPath)
    let afterWrite := built ++ ma.1 ++
      [ExportEffect.writeGraphAndCheckpoint modelPath ma.2]
    match cfg.additionalOutputTensorNames with
    | some _ =>
        (afterWrite,
         some (PyError.typeError "unsupported operand types for +: dict_keys and list"))
    | none =>
        let outputNodeNames := String.intercalate "," res.outputs
        (afterWrite ++
           [ExportEffect.freezeGraph ma.2 outputNodeNames frozenGraphPath,
            ExportEffect.writeFrozenGraph frozenGraphPath,
            _write_saved_model savedModelPath cfg.trainedCheckpointPath
              res.placeholderName res.outputs],
         none)

/-- The input checkpoints of all freeze steps in a trace. -/
def freezeInputCheckpoints (l : List ExportEffect) : List String :=
  l.filterMap fun e => match e with
    | ExportEffect.freezeGraph c _ _ => some c
    | _ => none

/-- The sources of all saved-model bundles written in a trace. -/
def savedModelSources (l : List ExportEffect) : List SavedModelSource :=
  l.filterMap fun e => match e with
    | ExportEffect.savedModel _ src _ _ _ _ => some src
    | _ => none

/-- Whether an effect is the graph-and-checkpoint write. -/
def isWriteGraphCkpt : ExportEffect → Bool
  | ExportEffect.writeGraphAndCheckpoint _ _ => true
  | _ => false

/-- Whether an effect is a graph-freeze step. -/
def isFreezeEffect : ExportEffect → Bool
  | ExportEffect.freezeGraph _ _ _ => true
  | _ => false

/-- Whether an effect is a saved-model write. -/
def isSavedModelEffect : ExportEffect → Bool
  | ExportEffect.savedModel _ _ _ _ _ _ => true
  | _ => false

/-! Helper lemmas. -/

theorem compute_num_batches_error (m : Option Int) (ns : Nat) (bs : Int)
    (e : PyError) (h : compute_num_batches m ns bs = Except.error e) :
    e = PyError.zeroDivisionError := by
  unfold compute_num_batches num_batches_ceil at h
  split at h
  · split at h
    · split at h
      · injection h with h; exact h.symm
      · exact absurd h (by simp)
    · exact absurd h (by simp)
  · split at h
    · injection h with h; exact h.symm
    · exact absurd h (by simp)

theorem compute_num_batches_ok (m : Option Int) (ns : Nat) (bs : Int) (nb : Int)
    (h : compute_num_batches m ns bs = Except.ok nb) :
    (∀ n, m = some n → n ≠ 0 → nb = n) ∧
    ((m = none ∨ m = some 0) → nb = ⌈(ns : ℚ) / (bs : ℚ)⌉) := by
  unfold compute_num_batches num_batches_ceil at h
  split at h
  · next n =>
    by_cases hn : n = 0
    · subst hn
      rw [if_pos rfl] at h
      constructor
      · intro k hk hk0
        exact absurd ((Option.some.injEq _ _).mp hk).symm hk0
      · intro _
        split at h
        · exact absurd h (by simp)
        · injection h with h; exact h.symm
    · rw [if_neg hn] at h
      injection h with h
      constructor
      · intro k hk _
        rw [← (Option.some.injEq _ _).mp hk]; exact h.symm
      · intro hcase
        rcases hcase with hc | hc
        · exact absurd hc (by simp)
        · exact absurd ((Option.some.injEq _ _).mp hc) hn
  · constructor
    · intro n hn; exact absurd hn (by simp)
    · intro _
      split at h
      · exact absurd h (by simp)
      · injection h with h; exact h.symm

theorem ceil_batches_bounds (ns : Nat) (bs : Int) (hbs : 0 < bs) :
    (ns : Int) ≤ ⌈(ns : ℚ) / (bs : ℚ)⌉ * bs ∧
    (⌈(ns : ℚ) / (bs : ℚ)⌉ - 1) * bs < (ns : Int) := by
  have hb : (0 : ℚ) < (bs : ℚ) := by exact_mod_cast hbs
  constructor
  · have h1 : (ns : ℚ) / (bs : ℚ) ≤ (⌈(ns : ℚ) / (bs : ℚ)⌉ : ℚ) := Int.le_ceil _
    have h2 : (ns : ℚ) ≤ (⌈(ns : ℚ) / (bs : ℚ)⌉ : ℚ) * (bs : ℚ) :=
      (div_le_iff₀ hb).mp h1
    exact_mod_cast h2
  · have h0 : ⌈(ns : ℚ) / (bs : ℚ)⌉ - 1 < ⌈(ns : ℚ) / (bs : ℚ)⌉ := by omega
    have h1 : ((⌈(ns : ℚ) / (bs : ℚ)⌉ - 1 : Int) : ℚ) < (ns : ℚ) / (bs : ℚ) :=
      Int.lt_ceil.mp h0
    have h2 : ((⌈(ns : ℚ) / (bs : ℚ)⌉ - 1 : Int) : ℚ) * (bs : ℚ) < (ns : ℚ) :=
      (lt_div_iff₀ hb).mp h1
    exact_mod_cast h2

theorem eval_main_ok_elim (flags : EvalFlags) (dataset : Dataset) (rawLabel : Int)
    (env : EvalEnv) (s : EvalSetup)
    (h : eval_main flags dataset rawLabel env = Except.ok s) :
    pyTruthyStr flags.dataset_dir = true ∧
    s.networkNumClasses = (dataset.num_classes : Int) - flags.labels_offset ∧
    s.metricLabel = rawLabel - flags.labels_offset ∧
    s.metricNames =
      (if dataset.num_classes > 2 then multiclassMetricNames else binaryMetricNames) ∧
    compute_num_batches flags.max_num_batches dataset.num_samples flags.batch_size =
      Except.ok s.numBatches := by
  unfold eval_main at h
  split at h
  · exact absurd h (by simp)
  · next hcond =>
    have htr : pyTruthyStr flags.dataset_dir = true := by
      cases hb : pyTruthyStr flags.dataset_dir
      · exact absurd hb hcond
      · rfl
    split at h
    · exact absurd h (by simp)
    · next nb hnb =>
      injection h with h
      subst h
      exact ⟨htr, rfl, rfl, rfl, hnb⟩

/-! Claim theorems for the evaluation driver. -/

/-- Claim C1: the metric set is selected by the class count of the dataset.
When num_classes is greater than 2 exactly Accuracy, Precision, Recall and
Recall_5 are constructed and computed; when num_classes is at most 2
exactly the ten binary metrics are constructed and computed, and no metric
outside the selected set appears in either branch. -/
theorem c1_metric_set_selection (flags : EvalFlags) (dataset : Dataset)
    (rawLabel : Int) (env : EvalEnv) (s : EvalSetup)
    (h : eval_main flags dataset rawLabel env = Except.ok s) :
    (2 < dataset.num_classes →
      s.metricNames = ["Accuracy", "Precision", "Recall", "Recall_5"]) ∧
    (dataset.num_classes ≤ 2 →
      s.metricNames = ["Accuracy", "Precision", "Recall", "F1_score",
        "Auc_ROC", "Auc_PR", "TP", "TN", "FP", "FN"]) := by
  have hm := (eval_main_ok_elim flags dataset rawLabel env s h).2.2.2.1
  constructor
  · intro hgt
    rw [hm, if_pos hgt]
    rfl
  · intro hle
    rw [hm, if_neg (by omega)]
    rfl

/-- Claim C1 witness: a 10-class dataset selects the multi-class metric set. -/
theorem c1_metric_set_selection_witness :
    eval_main { dataset_dir := some "d", max_num_batches := some 7 }
        { num_samples := 100, num_classes := 10 } 0
        { checkpointIsDirectory := false, latestCheckpoint := none } =
      Except.ok { networkNumClasses := 10, metricLabel := 0,
                  metricNames := ["Accuracy", "Precision", "Recall", "Recall_5"],
                  numBatches := 7, resolvedCheckpoint := none } ∧
    ({ networkNumClasses := 10, metricLabel := 0,
       metricNames := ["Accuracy", "Precision", "Recall", "Recall_5"],
       numBatches := 7, resolvedCheckpoint := none } : EvalSetup).metricNames =
      ["Accuracy", "Precision", "Recall", "Recall_5"] :=
  ⟨rfl,
   (c1_metric_set_selection { dataset_dir := some "d", max_num_batches := some 7 }
     { num_samples := 100, num_classes := 10 } 0
     { checkpointIsDirectory := false, latestCheckpoint := none } _ rfl).1
     (by decide)⟩

/-- Claim C2 counterexample: with a supplied negative cap the flag is truthy
in Python, so num_batches is the negative flag value, not the ceiling the
claim requires for every non-positive case. At max_num_batches of minus
five, 10 samples and the default batch size 100, the code yields minus five
while the claimed ceiling is 1. -/
theorem c2_num_batches_counterexample :
    (eval_main { dataset_dir := some "d", max_num_batches := some (-5) }
        { num_samples := 10, num_classes := 5 } 0
        { checkpointIsDirectory := false, latestCheckpoint := none }).map
        (fun s => s.numBatches) = Except.ok (-5) ∧
    (-5 : Int) ≠ ⌈(10 : ℚ) / (100 : ℚ)⌉ := by
  constructor
  · rfl
  · intro hc
    have : ⌈(10 : ℚ) / (100 : ℚ)⌉ = 1 := by
      rw [Int.ceil_eq_iff]
      norm_num
    rw [this] at hc
    exact absurd hc (by decide)

/-- Claim C2 as amended: num_batches equals max_num_batches whenever the
flag is supplied and nonzero (Python truthiness, so a negative cap is also
used as given); when the flag is unset or zero it equals the ceiling of
num_samples over batch_size, and in the unset case with a positive batch
size that ceiling makes at most one pass over the split: the batches cover
all samples and one batch fewer would not. -/
theorem c2_num_batches (flags : EvalFlags) (dataset : Dataset) (rawLabel : Int)
    (env : EvalEnv) (s : EvalSetup)
    (h : eval_main flags dataset rawLabel env = Except.ok s) :
    (∀ n, flags.max_num_batches = some n → n ≠ 0 → s.numBatches = n) ∧
    ((flags.max_num_batches = none ∨ flags.max_num_batches = some 0) →
      s.numBatches = ⌈(dataset.num_samples : ℚ) / (flags.batch_size : ℚ)⌉) ∧
    (flags.max_num_batches = none → 0 < flags.batch_size →
      (dataset.num_samples : Int) ≤ s.numBatches * flags.batch_size ∧
      (s.numBatches - 1) * flags.batch_size < (dataset.num_samples : Int)) := by
  have hc := (eval_main_ok_elim flags dataset rawLabel env s h).2.2.2.2
  have hspec := compute_num_batches_ok flags.max_num_batches dataset.num_samples
    flags.batch_size s.numBatches hc
  refine ⟨hspec.1, hspec.2, ?_⟩
  intro hnone hbs
  rw [hspec.2 (Or.inl hnone)]
  exact ceil_batches_bounds dataset.num_samples flags.batch_size hbs

/-- Claim C2 witness: with a supplied nonzero cap of 7, num_batches is 7. -/
theorem c2_num_batches_witness :
    eval_main { dataset_dir := some "d", max_num_batches := some 7 }
        { num_samples := 100, num_classes := 2 } 0
        { checkpointIsDirectory := false, latestCheckpoint := none } =
      Except.ok { networkNumClasses := 2, metricLabel := 0,
                  metricNames := ["Accuracy", "Precision", "Recall", "F1_score",
                    "Auc_ROC", "Auc_PR", "TP", "TN", "FP", "FN"],
                  numBatches := 7, resolvedCheckpoint := none } ∧
    ({ networkNumClasses := 2, metricLabel := 0,
       metricNames := ["Accuracy", "Precision", "Recall", "F1_score",
         "Auc_ROC", "Auc_PR", "TP", "TN", "FP", "FN"],
       numBatches := 7, resolvedCheckpoint := none } : EvalSetup).numBatches = 7 :=
  ⟨rfl,
   (c2_num_batches { dataset_dir := some "d", max_num_batches := some 7 }
     { num_samples := 100, num_classes := 2 } 0
     { checkpointIsDirectory := false, latestCheckpoint := none } _ rfl).1
     7 rfl (by decide)⟩

/-- Claim C6: main raises its dataset-directory ValueError exactly when the
dataset directory is unset or empty (Python falsy) after alias application,
and for every run with a truthy dataset directory that check passes and no
ValueError is raised by main at all. -/
theorem c6_dataset_dir_precondition (flags : EvalFlags) (dataset : Dataset)
    (rawLabel : Int) (env : EvalEnv) :
    (pyTruthyStr flags.dataset_dir = false ↔
      flags.dataset_dir = none ∨ flags.dataset_dir = some "") ∧
    (pyTruthyStr flags.dataset_dir = false →
      eval_main flags dataset rawLabel env =
        Except.error (PyError.valueError
          "You must supply the dataset directory with --dataset_dir")) ∧
    (pyTruthyStr flags.dataset_dir = true →
      ∀ msg, eval_main flags dataset rawLabel env ≠
        Except.error (PyError.valueError msg)) := by
  refine ⟨?_, ?_, ?_⟩
  · rcases hd : flags.dataset_dir with - | v
    · simp [pyTruthyStr]
    · simp only [pyTruthyStr, Bool.not_eq_false', Option.some.injEq]
      constructor
      · intro hv
        exact Or.inr ((String.isEmpty_iff v).mp hv)
      · intro hv
        rcases hv with hv | hv
        · exact absurd hv (by simp)
        · exact (String.isEmpty_iff v).mpr hv
  · intro hfalse
    unfold eval_main
    rw [if_pos hfalse]
  · intro htrue msg
    unfold eval_main
    rw [if_neg (by rw [htrue]; simp)]
    rcases hc : compute_num_batches flags.max_num_batches dataset.num_samples
        flags.batch_size with e | nb
    · have he := compute_num_batches_error _ _ _ _ hc
      subst he
      simp
    · simp

/-- Claim C6 witness: all-default flags have no dataset directory, and main
raises the ValueError; with a directory supplied the check passes. -/
theorem c6_dataset_dir_precondition_witness :
    eval_main {} { num_samples := 3, num_classes := 2 } 0
        { checkpointIsDirectory := false, latestCheckpoint := none } =
      Except.error (PyError.valueError
        "You must supply the dataset directory with --dataset_dir") ∧
    eval_main { dataset_dir := some "d", max_num_batches := some 7 }
        { num_samples := 3, num_classes := 2 } 0
        { checkpointIsDirectory := false, latestCheckpoint := none } ≠
      Except.error (PyError.valueError
        "You must supply the dataset directory with --dataset_dir") :=
  ⟨(c6_dataset_dir_precondition {} { num_samples := 3, num_classes := 2 } 0
      { checkpointIsDirectory := false, latestCheckpoint := none }).2.1 rfl,
   (c6_dataset_dir_precondition
      { dataset_dir := some "d", max_num_batches := some 7 }
      { num_samples := 3, num_classes := 2 } 0
      { checkpointIsDirectory := false, latestCheckpoint := none }).2.2 rfl _⟩

/-- Claim C8: the label offset is subtracted from the provider label before
any metric computation, and the network is constructed with num_classes
equal to the dataset class count minus the offset. -/
theorem c8_labels_offset (flags : EvalFlags) (dataset : Dataset) (rawLabel : Int)
    (env : EvalEnv) (s : EvalSetup)
    (h : eval_main flags dataset rawLabel env = Except.ok s) :
    s.metricLabel = rawLabel - flags.labels_offset ∧
    s.networkNumClasses = (dataset.num_classes : Int) - flags.labels_offset :=
  ⟨(eval_main_ok_elim flags dataset rawLabel env s h).2.2.1,
   (eval_main_ok_elim flags dataset rawLabel env s h).2.1⟩

/-- Claim C8 witness: with offset 1, a raw label 4 becomes 3 and a 10-class
dataset yields a 9-class network. -/
theorem c8_labels_offset_witness :
    eval_main { dataset_dir := some "d", max_num_batches := some 7,
                labels_offset := 1 }
        { num_samples := 100, num_classes := 10 } 4
        { checkpointIsDirectory := false, latestCheckpoint := none } =
      Except.ok { networkNumClasses := 9, metricLabel := 3,
                  metricNames := ["Accuracy", "Precision", "Recall", "Recall_5"],
                  numBatches := 7, resolvedCheckpoint := none } ∧
    ({ networkNumClasses := 9, metricLabel := 3,
       metricNames := ["Accuracy", "Precision", "Recall", "Recall_5"],
       numBatches := 7, resolvedCheckpoint := none } : EvalSetup).metricLabel =
      4 - 1 :=
  ⟨rfl,
   (c8_labels_offset { dataset_dir := some "d", max_num_batches := some 7,
                       labels_offset := 1 }
     { num_samples := 100, num_classes := 10 } 4
     { checkpointIsDirectory := false, latestCheckpoint := none } _ rfl).1⟩

/-- Claim C7: a supplied data_path overwrites dataset_dir and a supplied
output_path overwrites eval_dir, both before the dataset-name special case;
the special case tests whether dog occurs as a substring of data_path and
if so forces dataset_name, dataset_split_name and model_name to the fixed
values, leaving them untouched otherwise. -/
theorem c7_aliases_and_dog_case (flags : EvalFlags) (p : String)
    (h : flags.data_path = some p) :
    (entry_point flags).2 = none ∧
    (entry_point flags).1.dataset_dir = some p ∧
    (∀ q, flags.output_path = some q → (entry_point flags).1.eval_dir = some q) ∧
    (flags.output_path = none → (entry_point flags).1.eval_dir = flags.eval_dir) ∧
    (pyInStr "dog" p = true →
      (entry_point flags).1.dataset_name = "dog-vs-cat" ∧
      (entry_point flags).1.dataset_split_name = "validation" ∧
      (entry_point flags).1.model_name = "inception_v3") ∧
    (pyInStr "dog" p = false →
      (entry_point flags).1.dataset_name = flags.dataset_name ∧
      (entry_point flags).1.dataset_split_name = flags.dataset_split_name ∧
      (entry_point flags).1.model_name = flags.model_name) := by
  rcases ho : flags.output_path with - | q <;>
    cases hdog : pyInStr "dog" p <;>
      simp [entry_point, h, ho, hdog]

/-- Claim C7 witness: with data_path containing dog and an output_path, the
aliases land in dataset_dir and eval_dir and the dog special case fires. -/
theorem c7_aliases_and_dog_case_witness :
    (entry_point { data_path := some "data/dogs-cats", output_path := some "o" }).2
      = none ∧
    (entry_point { data_path := some "data/dogs-cats",
                   output_path := some "o" }).1.dataset_dir = some "data/dogs-cats" ∧
    (entry_point { data_path := some "data/dogs-cats",
                   output_path := some "o" }).1.eval_dir = some "o" ∧
    (entry_point { data_path := some "data/dogs-cats",
                   output_path := some "o" }).1.dataset_name = "dog-vs-cat" := by
  have hw := c7_aliases_and_dog_case
    { data_path := some "data/dogs-cats", output_path := some "o" }
    "data/dogs-cats" rfl
  exact ⟨hw.1, hw.2.1, hw.2.2.1 "o" rfl, (hw.2.2.2.2.1 (by decide)).1⟩

/-- Claim C9: with data_path left at its default None, the entry-point
block raises TypeError at the dog membership test before main ever runs,
even when dataset_dir is supplied, so every successful run requires a
data_path. -/
theorem c9_data_path_required (flags : EvalFlags) (dataset : Dataset)
    (rawLabel : Int) (env : EvalEnv) (h : flags.data_path = none) :
    run_script flags dataset rawLabel env =
      Except.error (PyError.typeError "argument of type NoneType is not iterable") := by
  rcases ho : flags.output_path with - | q <;>
    simp [run_script, entry_point, h, ho]

/-- Claim C9 witness: a run with dataset_dir supplied but data_path unset
still dies with the TypeError, not with the dataset-directory check. -/
theorem c9_data_path_required_witness :
    run_script { dataset_dir := some "d" } { num_samples := 3, num_classes := 2 }
        0 { checkpointIsDirectory := false, latestCheckpoint := none } =
      Except.error (PyError.typeError "argument of type NoneType is not iterable") :=
  c9_data_path_required { dataset_dir := some "d" }
    { num_samples := 3, num_classes := 2 } 0
    { checkpointIsDirectory := false, latestCheckpoint := none } rfl

/-! Helper lemmas for the export pipeline. -/

theorem central_fraction_truthy : (0.875 : ℚ) ≠ 0 := by norm_num

theorem model_preprocess_eval (s : Nat) (hs : s ≠ 0) :
    model_preprocess true s s 0.875 true false =
      [GraphOp.centralCrop, GraphOp.resizeBilinear, GraphOp.subtractHalf,
       GraphOp.multiplyTwo] := by
  simp [model_preprocess, central_fraction_truthy, hs]

theorem build_image_tensor_eval (imageSize : Nat)
    (inputShape : Option (List (Option Nat))) (coll : String)
    (hsz : imageSize ≠ 0) :
    _build_model_graph "image_tensor" imageSize inputShape coll false =
      ([GraphOp.placeholder "image_tensor"
          (inputShape.getD [none, none, none, some 3]),
        GraphOp.toFloat, GraphOp.centralCrop, GraphOp.resizeBilinear,
        GraphOp.subtractHalf, GraphOp.multiplyTwo, GraphOp.modelForward,
        GraphOp.softmaxOp, GraphOp.argmaxOp, GraphOp.identityOut "classes",
        GraphOp.identityOut "logits", GraphOp.collect coll "classes",
        GraphOp.collect coll "logits", GraphOp.globalStep],
       Except.ok { outputs := ["classes", "logits"],
                   placeholderName := "image_tensor" }) := by
  unfold _build_model_graph
  rw [if_neg (by decide), if_neg (by simp)]
  simp [_image_tensor_input_placeholder, _get_outputs_from_inputs,
    model_preprocess_eval imageSize hsz, model_postprocess,
    _add_output_tensor_nodes]

theorem intercalate_classes_logits :
    String.intercalate "," ["classes", "logits"] = "classes,logits" := rfl

theorem export_trace_no_ma (cfg : ExportConfig) (env : ExportEnv)
    (hty : cfg.inputType = "image_tensor") (hshape : cfg.inputShape = none)
    (hadd : cfg.additionalOutputTensorNames = none) (hhook : cfg.graphHook = false)
    (hsz : cfg.imageSize ≠ 0)
    (huma : pyTruthyBool cfg.useMovingAverages = false) :
    export_inference_graph cfg env =
      ([ExportEffect.makeDirs cfg.outputDirectory,
        ExportEffect.graph (GraphOp.placeholder "image_tensor"
          [none, none, none, some 3]),
        ExportEffect.graph GraphOp.toFloat,
        ExportEffect.graph GraphOp.centralCrop,
        ExportEffect.graph GraphOp.resizeBilinear,
        ExportEffect.graph GraphOp.subtractHalf,
        ExportEffect.graph GraphOp.multiplyTwo,
        ExportEffect.graph GraphOp.modelForward,
        ExportEffect.graph GraphOp.softmaxOp,
        ExportEffect.graph GraphOp.argmaxOp,
        ExportEffect.graph (GraphOp.identityOut "classes"),
        ExportEffect.graph (GraphOp.identityOut "logits"),
        ExportEffect.graph (GraphOp.collect cfg.outputCollectionName "classes"),
        ExportEffect.graph (GraphOp.collect cfg.outputCollectionName "logits"),
        ExportEffect.graph GraphOp.globalStep,
        ExportEffect.writeGraphAndCheckpoint (cfg.outputDirectory ++ "/model.ckpt")
          cfg.trainedCheckpointPath,
        ExportEffect.freezeGraph cfg.trainedCheckpointPath "classes,logits"
          (cfg.outputDirectory ++ "/frozen_inference_graph.pb"),
        ExportEffect.writeFrozenGraph
          (cfg.outputDirectory ++ "/frozen_inference_graph.pb"),
        ExportEffect.savedModel (cfg.outputDirectory ++ "/saved_model")
          (SavedModelSource.liveGraphRestoredFrom cfg.trainedCheckpointPath)
          "image_tensor" ["inputs"] ["classes", "logits"] ["serve"]],
       none) := by
  unfold export_inference_graph
  rw [hty, hshape, hhook, hadd, huma,
    build_image_tensor_eval cfg.imageSize none cfg.outputCollectionName hsz]
  simp [_write_saved_model, intercalate_classes_logits]

theorem export_trace_ma (cfg : ExportConfig) (env : ExportEnv)
    (hty : cfg.inputType = "image_tensor") (hshape : cfg.inputShape = none)
    (hadd : cfg.additionalOutputTensorNames = none) (hhook : cfg.graphHook = false)
    (hsz : cfg.imageSize ≠ 0)
    (huma : pyTruthyBool cfg.useMovingAverages = true) :
    export_inference_graph cfg env =
      ([ExportEffect.makeDirs cfg.outputDirectory,
        ExportEffect.graph (GraphOp.placeholder "image_tensor"
          [none, none, none, some 3]),
        ExportEffect.graph GraphOp.toFloat,
        ExportEffect.graph GraphOp.centralCrop,
        ExportEffect.graph GraphOp.resizeBilinear,
        ExportEffect.graph GraphOp.subtractHalf,
        ExportEffect.graph GraphOp.multiplyTwo,
        ExportEffect.graph GraphOp.modelForward,
        ExportEffect.graph GraphOp.softmaxOp,
        ExportEffect.graph GraphOp.argmaxOp,
        ExportEffect.graph (GraphOp.identityOut "classes"),
        ExportEffect.graph (GraphOp.identityOut "logits"),
        ExportEffect.graph (GraphOp.collect cfg.outputCollectionName "classes"),
        ExportEffect.graph (GraphOp.collect cfg.outputCollectionName "logits"),
        ExportEffect.graph GraphOp.globalStep,
        ExportEffect.replaceWithMovingAverages cfg.trainedCheckpointPath
          (tempPathOf env),
        ExportEffect.writeGraphAndCheckpoint (cfg.outputDirectory ++ "/model.ckpt")
          (tempPathOf env),
        ExportEffect.freezeGraph (tempPathOf env) "classes,logits"
          (cfg.outputDirectory ++ "/frozen_inference_graph.pb"),
        ExportEffect.writeFrozenGraph
          (cfg.outputDirectory ++ "/frozen_inference_graph.pb"),
        ExportEffect.savedModel (cfg.outputDirectory ++ "/saved_model")
          (SavedModelSource.liveGraphRestoredFrom cfg.trainedCheckpointPath)
          "image_tensor" ["inputs"] ["classes", "logits"] ["serve"]],
       none) := by
  unfold export_inference_graph
  rw [hty, hshape, hhook, hadd, huma,
    build_image_tensor_eval cfg.imageSize none cfg.outputCollectionName hsz]
  simp [_write_saved_model, intercalate_classes_logits]

/-! Claim theorems for the export pipeline. -/

/-- Claim C5: an input type outside the placeholder map raises ValueError
with no graph op constructed at all, a non-None input shape raises
ValueError for any input type other than image_tensor again with an empty
graph, and with input type image_tensor the build succeeds whatever the
shape. -/
theorem c5_input_validation (inputType : String) (imageSize : Nat)
    (inputShape : Option (List (Option Nat))) (coll : String) (hook : Bool) :
    (inputType ∉ input_placeholder_fn_map →
      _build_model_graph inputType imageSize inputShape coll hook =
        ([], Except.error (PyError.valueError
          ("Unknown input type: " ++ inputType)))) ∧
    (inputShape.isSome → inputType ≠ "image_tensor" →
      (_build_model_graph inputType imageSize inputShape coll hook).1 = [] ∧
      ∃ msg, (_build_model_graph inputType imageSize inputShape coll hook).2 =
        Except.error (PyError.valueError msg)) ∧
    (inputType = "image_tensor" →
      ∃ r, (_build_model_graph inputType imageSize inputShape coll hook).2 =
        Except.ok r) := by
  refine ⟨?_, ?_, ?_⟩
  · intro hmem
    unfold _build_model_graph
    rw [if_pos hmem]
  · intro hs hne
    unfold _build_model_graph
    by_cases hmem : inputType ∈ input_placeholder_fn_map
    · rw [if_neg (by simp [hmem]), if_pos ⟨hs, hne⟩]
      exact ⟨rfl, _, rfl⟩
    · rw [if_pos hmem]
      exact ⟨rfl, _, rfl⟩
  · intro hty
    subst hty
    unfold _build_model_graph
    rw [if_neg (by decide), if_neg (by simp)]
    exact ⟨_, rfl⟩

/-- Claim C5 witness: the input type tf_example is rejected with an empty
graph trace and the unknown-input-type ValueError. -/
theorem c5_input_validation_witness :
    _build_model_graph "tf_example" 224 none "inference_op" false =
      ([], Except.error (PyError.valueError
        ("Unknown input type: " ++ "tf_example"))) :=
  (c5_input_validation "tf_example" 224 none "inference_op" false).1 (by decide)

/-- Claim C3: with moving-average substitution requested, the pipeline first
writes a new checkpoint at the temporary path via the shadow-variable
substitution and then passes exactly that temporary checkpoint, not the raw
trained one, as the input checkpoint of the freezing step. -/
theorem c3_moving_average_before_freeze (cfg : ExportConfig) (env : ExportEnv)
    (hty : cfg.inputType = "image_tensor") (hshape : cfg.inputShape = none)
    (hadd : cfg.additionalOutputTensorNames = none)
    (hhook : cfg.graphHook = false) (hsz : cfg.imageSize ≠ 0)
    (huma : pyTruthyBool cfg.useMovingAverages = true)
    (hne : tempPathOf env ≠ cfg.trainedCheckpointPath) :
    (export_inference_graph cfg env).2 = none ∧
    freezeInputCheckpoints (export_inference_graph cfg env).1 = [tempPathOf env] ∧
    tempPathOf env ≠ cfg.trainedCheckpointPath ∧
    ∃ i j, i < j ∧
      (export_inference_graph cfg env).1.get? i =
        some (ExportEffect.replaceWithMovingAverages cfg.trainedCheckpointPath
          (tempPathOf env)) ∧
      (export_inference_graph cfg env).1.get? j =
        some (ExportEffect.freezeGraph (tempPathOf env) "classes,logits"
          (cfg.outputDirectory ++ "/frozen_inference_graph.pb")) := by
  rw [export_trace_ma cfg env hty hshape hadd hhook hsz huma]
  exact ⟨rfl, rfl, hne, 15, 17, by omega, rfl, rfl⟩

/-- Claim C3 witness: a concrete moving-average export freezes from the
temporary directory checkpoint. -/
theorem c3_moving_average_before_freeze_witness :
    (export_inference_graph
        { inputType := "image_tensor", imageSize := 224,
          trainedCheckpointPath := "ckpt", outputDirectory := "out",
          useMovingAverages := some true }
        { trainedCheckpointIsFile := false, tempFileName := "tmpf",
          tempDirName := "tmpd" }).2 = none ∧
    freezeInputCheckpoints (export_inference_graph
        { inputType := "image_tensor", imageSize := 224,
          trainedCheckpointPath := "ckpt", outputDirectory := "out",
          useMovingAverages := some true }
        { trainedCheckpointIsFile := false, tempFileName := "tmpf",
          tempDirName := "tmpd" }).1 = ["tmpd"] := by
  have hw := c3_moving_average_before_freeze
    { inputType := "image_tensor", imageSize := 224,
      trainedCheckpointPath := "ckpt", outputDirectory := "out",
      useMovingAverages := some true }
    { trainedCheckpointIsFile := false, tempFileName := "tmpf",
      tempDirName := "tmpd" }
    rfl rfl rfl rfl (by decide) rfl (by decide)
  exact ⟨hw.1, hw.2.1⟩

/-- Claim C4 counterexample: at a concrete export the only saved-model
bundle written is built from the live graph with variables restored from
the raw trained checkpoint, not from the frozen graph definition, so the
bundling step does not wrap the frozen graph. -/
theorem c4_saved_model_counterexample :
    savedModelSources (export_inference_graph
        { inputType := "image_tensor", imageSize := 224,
          trainedCheckpointPath := "ckpt", outputDirectory := "out" }
        { trainedCheckpointIsFile := false, tempFileName := "tmpf",
          tempDirName := "tmpd" }).1 =
      [SavedModelSource.liveGraphRestoredFrom "ckpt"] ∧
    SavedModelSource.isFromFrozenGraphDef
      (SavedModelSource.liveGraphRestoredFrom "ckpt") = false := by
  rw [export_trace_no_ma
    { inputType := "image_tensor", imageSize := 224,
      trainedCheckpointPath := "ckpt", outputDirectory := "out" }
    { trainedCheckpointIsFile := false, tempFileName := "tmpf",
      tempDirName := "tmpd" }
    rfl rfl rfl rfl (by decide) rfl]
  exact ⟨rfl, rfl⟩

/-- Claim C4 as amended: the final bundling step writes the servable bundle
under output_directory slash saved_model with a signature declaring the one
named input tensor inputs and the named outputs classes and logits, tagged
for serving use, but the bundle is built from the in-memory inference graph
with variables restored from the raw trained checkpoint, not from the
frozen graph definition produced by the freezing step. -/
theorem c4_saved_model_bundle (cfg : ExportConfig) (env : ExportEnv)
    (hty : cfg.inputType = "image_tensor") (hshape : cfg.inputShape = none)
    (hadd : cfg.additionalOutputTensorNames = none)
    (hhook : cfg.graphHook = false) (hsz : cfg.imageSize ≠ 0) :
    (export_inference_graph cfg env).2 = none ∧
    (export_inference_graph cfg env).1.getLast? =
      some (ExportEffect.savedModel (cfg.outputDirectory ++ "/saved_model")
        (SavedModelSource.liveGraphRestoredFrom cfg.trainedCheckpointPath)
        "image_tensor" ["inputs"] ["classes", "logits"] ["serve"]) ∧
    savedModelSources (export_inference_graph cfg env).1 =
      [SavedModelSource.liveGraphRestoredFrom cfg.trainedCheckpointPath] ∧
    SavedModelSource.isFromFrozenGraphDef
      (SavedModelSource.liveGraphRestoredFrom cfg.trainedCheckpointPath) = false := by
  by_cases hma : pyTruthyBool cfg.useMovingAverages = true
  · rw [export_trace_ma cfg env hty hshape hadd hhook hsz hma]
    exact ⟨rfl, rfl, rfl, rfl⟩
  · rw [export_trace_no_ma cfg env hty hshape hadd hhook hsz
      (by rcases hb : pyTruthyBool cfg.useMovingAverages with - | -
          · rfl
          · exact absurd hb hma)]
    exact ⟨rfl, rfl, rfl, rfl⟩

/-- Claim C4 witness: a concrete export ends with the saved-model write
from the raw trained checkpoint with the inputs to classes and logits
signature and the serving tag. -/
theorem c4_saved_model_bundle_witness :
    (export_inference_graph
        { inputType := "image_tensor", imageSize := 224,
          trainedCheckpointPath := "raw-ckpt", outputDirectory := "exp" }
        { trainedCheckpointIsFile := true, tempFileName := "tmpf",
          tempDirName := "tmpd" }).1.getLast? =
      some (ExportEffect.savedModel "exp/saved_model"
        (SavedModelSource.liveGraphRestoredFrom "raw-ckpt")
        "image_tensor" ["inputs"] ["classes", "logits"] ["serve"]) :=
  (c4_saved_model_bundle
    { inputType := "image_tensor", imageSize := 224,
      trainedCheckpointPath := "raw-ckpt", outputDirectory := "exp" }
    { trainedCheckpointIsFile := true, tempFileName := "tmpf",
      tempDirName := "tmpd" }
    rfl rfl rfl rfl (by decide)).2.1

/-- Claim C10: whenever additional output tensor names are supplied, the
plus of dict_keys and a list raises TypeError, after the graph and the
intermediate checkpoint have been written but before any freezing or
saved-model step, so additional outputs never reach a frozen graph. -/
theorem c10_additional_output_names (cfg : ExportConfig) (env : ExportEnv)
    (res : BuildResult)
    (hb : (_build_model_graph cfg.inputType cfg.imageSize cfg.inputShape
      cfg.outputCollectionName cfg.graphHook).2 = Except.ok res)
    (hadd : cfg.additionalOutputTensorNames.isSome) :
    (export_inference_graph cfg env).2 =
      some (PyError.typeError "unsupported operand types for +: dict_keys and list") ∧
    (export_inference_graph cfg env).1.any isWriteGraphCkpt = true ∧
    (export_inference_graph cfg env).1.any isFreezeEffect = false ∧
    (export_inference_graph cfg env).1.any isSavedModelEffect = false := by
  obtain ⟨names, hnames⟩ := Option.isSome_iff_exists.mp hadd
  unfold export_inference_graph
  rcases hB : _build_model_graph cfg.inputType cfg.imageSize cfg.inputShape
      cfg.outputCollectionName cfg.graphHook with ⟨ops, r⟩
  rw [hB] at hb
  dsimp only at hb
  subst hb
  rw [hnames]
  by_cases hma : pyTruthyBool cfg.useMovingAverages = true <;>
    simp [hma, isWriteGraphCkpt, isFreezeEffect, isSavedModelEffect,
      List.any_map, Function.comp]

/-- Claim C10 witness: a concrete export with one additional output name
stops with the TypeError after the checkpoint write and never freezes. -/
theorem c10_additional_output_names_witness :
    (export_inference_graph
        { inputType := "image_tensor", imageSize := 224,
          trainedCheckpointPath := "ckpt", outputDirectory := "out",
          additionalOutputTensorNames := some ["extra"] }
        { trainedCheckpointIsFile := false, tempFileName := "tmpf",
          tempDirName := "tmpd" }).2 =
      some (PyError.typeError "unsupported operand types for +: dict_keys and list") ∧
    (export_inference_graph
        { inputType := "image_tensor", imageSize := 224,
          trainedCheckpointPath := "ckpt", outputDirectory := "out",
          additionalOutputTensorNames := some ["extra"] }
        { trainedCheckpointIsFile := false, tempFileName := "tmpf",
          tempDirName := "tmpd" }).1.any isWriteGraphCkpt = true ∧
    (export_inference_graph
        { inputType := "image_tensor", imageSize := 224,
          trainedCheckpointPath := "ckpt", outputDirectory := "out",
          additionalOutputTensorNames := some ["extra"] }
        { trainedCheckpointIsFile := false, tempFileName := "tmpf",
          tempDirName := "tmpd" }).1.any isFreezeEffect = false ∧
    (export_inference_graph
        { inputType := "image_tensor", imageSize := 224,
          trainedCheckpointPath := "ckpt", outputDirectory := "out",
          additionalOutputTensorNames := some ["extra"] }
        { trainedCheckpointIsFile := false, tempFileName := "tmpf",
          tempDirName := "tmpd" }).1.any isSavedModelEffect = false := by
  have hb : (_build_model_graph "image_tensor" 224 none "inference_op" false).2 =
      Except.ok { outputs := ["classes", "logits"],
                  placeholderName := "image_tensor" } := by
    rw [build_image_tensor_eval 224 none "inference_op" (by decide)]
  exact c10_additional_output_names
    { inputType := "image_tensor", imageSize := 224,
      trainedCheckpointPath := "ckpt", outputDirectory := "out",
      additionalOutputTensorNames := some ["extra"] }
    { trainedCheckpointIsFile := false, tempFileName := "tmpf",
      tempDirName := "tmpd" }
    { outputs := ["classes", "logits"], placeholderName := "image_tensor" }
    hb rfl

end Models
